import Mathlib

/-!
Verification of the shader-picker module (addon/i3dio/ui/shader_picker.py).

The module parses a shader descriptor XML file into grouped parameter and
texture records, selects the active subset according to a chosen variation,
and caches the list of discovered shaders.  The embedding below translates
the parsing and selection logic into Lean: XML elements become a simple tree
structure, Python dictionaries with insertion order become association
lists, and raised exceptions become values of an Except type.
-/

namespace ShaderPicker

/-- Helper for py_split: walk the characters, accumulating the current
token in reverse; whitespace closes the current token, and empty tokens are
never emitted. -/
def py_split_chars : List Char → List Char → List String
  | [], cur => if cur = [] then [] else [String.mk cur.reverse]
  | c :: rest, cur =>
      if c.isWhitespace then
        if cur = [] then py_split_chars rest []
        else String.mk cur.reverse :: py_split_chars rest []
      else py_split_chars rest (c :: cur)

/-- Python str.split with no arguments: split on whitespace runs and drop
the empty pieces (leading, trailing and repeated separators produce none). -/
def py_split (s : String) : List String :=
  py_split_chars s.data []

/-- Shallow embedding of an ElementTree XML element: tag, attribute mapping
(association list, insertion-ordered), optional text and direct children. -/
structure XMLElement where
  tag : String
  attrib : List (String × String)
  text : Option String
  children : List XMLElement

/-- Association-list lookup, the embedding of Python dict.get returning
None when the key is absent (first binding wins; keys are unique). -/
def assoc_get {α : Type} : List (String × α) → String → Option α
  | [], _ => none
  | p :: rest, k => if p.1 = k then some p.2 else assoc_get rest k

/-- Lookup in an attribute mapping, the embedding of element.attrib.get. -/
def attrib_get (a : List (String × String)) (k : String) : Option String :=
  assoc_get a k

/-- Module constant: value shown when no shader is selected. -/
def shader_default : String := "None"

/-- Module constant: enum value selecting a custom shader. -/
def shader_custom : String := "Custom"

/-- Module constant: default (empty) custom shader path. -/
def custom_shader_default : String := ""

/-- Module constant: variation value meaning no variation selected. -/
def shader_no_variation : String := "None"

/-- Arity of a shader parameter type, from the if chain at the top of
parameter_element_as_dict; none models the unknown-type branch where the
Python code only prints and leaves type_length unassigned. -/
def type_length_of (t : String) : Option Nat :=
  if t = "float" then some 1
  else if t = "float2" then some 2
  else if t = "float3" then some 3
  else if t = "float4" then some 4
  else none

/-- The inner parse_default closure: split the default string, slice lists
longer than type_length down to type_length - 1 entries, then pad with "0"
up to type_length entries. -/
def parse_default (type_length : Nat) (default : Option String) : List String :=
  let default_parsed : List String :=
    match default with
    | none => []
    | some d =>
        let parts := py_split d
        if type_length < parts.length then parts.take (type_length - 1) else parts
  default_parsed ++ List.replicate (type_length - default_parsed.length) "0"

/-- One entry of the dictionary list built by parameter_element_as_dict. -/
structure ParamSpec where
  name : String
  type : String
  default_value : List String
deriving DecidableEq, Repr

/-- Calling parse_default when the surrounding type was unknown raises
NameError in Python because type_length was never assigned; the embedding
returns that failure through Except. -/
def parse_default_checked (tl : Option Nat) (default : Option String) :
    Except String (List String) :=
  match tl with
  | none => Except.error "NameError: name type_length is not defined"
  | some n => Except.ok (parse_default n default)

/-- Embedding of parameter_element_as_dict: an arraySize parameter expands
into one spec per child (name suffixed by the child index attribute, default
parsed from the child text); otherwise a single spec is built from the name
and defaultValue attributes.  Missing mandatory attributes and the unknown
type branch surface as Except.error, the embedding of raised exceptions. -/
def parameter_element_as_dict (parameter : XMLElement) :
    Except String (List ParamSpec) :=
  match attrib_get parameter.attrib "type" with
  | none => Except.error "KeyError: type"
  | some ptype =>
    let tl := type_length_of ptype
    if (attrib_get parameter.attrib "arraySize").isSome then
      parameter.children.mapM fun child =>
        match attrib_get parameter.attrib "name", attrib_get child.attrib "index" with
        | none, _ => Except.error "KeyError: name"
        | some _, none => Except.error "KeyError: index"
        | some nm, some idx =>
            match parse_default_checked tl child.text with
            | Except.error e => Except.error e
            | Except.ok dv =>
                Except.ok { name := nm ++ idx, type := ptype, default_value := dv }
    else
      match attrib_get parameter.attrib "name" with
      | none => Except.error "KeyError: name"
      | some nm =>
          match parse_default_checked tl (attrib_get parameter.attrib "defaultValue") with
          | Except.error e => Except.error e
          | Except.ok dv =>
              Except.ok [{ name := nm, type := ptype, default_value := dv }]

/-- The dictionary built by texture_element_as_dict. -/
structure TexSpec where
  name : String
  default_file : String
deriving DecidableEq, Repr

/-- Embedding of texture_element_as_dict: name attribute (KeyError when
absent) and defaultFilename attribute defaulting to the empty string. -/
def texture_element_as_dict (texture : XMLElement) : Except String TexSpec :=
  match attrib_get texture.attrib "name" with
  | none => Except.error "KeyError: name"
  | some nm =>
      Except.ok { name := nm, default_file := (attrib_get texture.attrib "defaultFilename").getD "" }

/-- Embedding of grouped.setdefault(key, []) followed by extending the
bucket with new items: the existing binding grows in place, otherwise a new
binding is appended at the end (Python dicts preserve insertion order). -/
def setdefault_extend {α : Type} : List (String × List α) → String → List α → List (String × List α)
  | [], k, items => [(k, items)]
  | p :: rest, k, items =>
      if p.1 = k then (p.1, p.2 ++ items) :: rest
      else p :: setdefault_extend rest k items

/-- The grouping loop over the Parameters children: each parameter is
bucketed under its group attribute (defaulting to "mandatory") with the
specs produced by parameter_element_as_dict. -/
def group_parameters_aux : List (String × List ParamSpec) → List XMLElement →
    Except String (List (String × List ParamSpec))
  | acc, [] => Except.ok acc
  | acc, parameter :: rest =>
      match parameter_element_as_dict parameter with
      | Except.error e => Except.error e
      | Except.ok specs =>
          group_parameters_aux
            (setdefault_extend acc ((attrib_get parameter.attrib "group").getD "mandatory") specs)
            rest

/-- Grouping of the Parameters children starting from the empty dict. -/
def group_parameters (ps : List XMLElement) : Except String (List (String × List ParamSpec)) :=
  group_parameters_aux [] ps

/-- The grouping loop over the Textures children: a texture is considered
only when its defaultColorProfile attribute is defined, and is then bucketed
under its group attribute (defaulting to "mandatory"). -/
def group_textures_aux : List (String × List TexSpec) → List XMLElement →
    Except String (List (String × List TexSpec))
  | acc, [] => Except.ok acc
  | acc, texture :: rest =>
      if (attrib_get texture.attrib "defaultColorProfile").isSome then
        match texture_element_as_dict texture with
        | Except.error e => Except.error e
        | Except.ok spec =>
            group_textures_aux
              (setdefault_extend acc ((attrib_get texture.attrib "group").getD "mandatory") [spec])
              rest
      else group_textures_aux acc rest

/-- Grouping of the Textures children starting from the empty dict. -/
def group_textures (ts : List XMLElement) : Except String (List (String × List TexSpec)) :=
  group_textures_aux [] ts

/-- Embedding of root.find(tag): first direct child with the given tag. -/
def find_child (root : XMLElement) (t : String) : Option XMLElement :=
  root.children.find? fun c => c.tag == t

/-- Children of the first direct child with the given tag, or the empty
list: the for loop over root.find(tag) guarded by an is-not-None check. -/
def children_of (root : XMLElement) (t : String) : List XMLElement :=
  match find_child root t with
  | none => []
  | some e => e.children

/-- Predicate of the XPath query Variation[@name=v] over direct children. -/
def variation_matches (v : String) (c : XMLElement) : Bool :=
  c.tag == "Variation" &&
    (match attrib_get c.attrib "name" with
     | some n => n == v
     | none => false)

/-- Lookup of the Variation child named v inside the Variations element. -/
def find_variation (root : XMLElement) (v : String) : Option XMLElement :=
  match find_child root "Variations" with
  | none => none
  | some variations => variations.children.find? (variation_matches v)

/-- The activated group computation of I3DLoadCustomShaderVariation.execute:
with an active variation the groups are "mandatory" plus the split groups
attribute of that variation, otherwise "mandatory" and "base".  A missing
Variations element or a missing Variation child raises AttributeError in
Python (attribute access on None), embedded as Except.error. -/
def parameter_groups_of (variation_attr : String) (root : XMLElement) :
    Except String (List String) :=
  if variation_attr ≠ shader_no_variation then
    match find_child root "Variations" with
    | none => Except.error "AttributeError: NoneType object has no attribute find"
    | some variations =>
        match variations.children.find? (variation_matches variation_attr) with
        | none => Except.error "AttributeError: NoneType object has no attribute attrib"
        | some variation =>
            Except.ok ("mandatory" :: py_split ((attrib_get variation.attrib "groups").getD ""))
  else Except.ok ["mandatory", "base"]

/-- The final selection loop: for each activated group in order, append the
bucket of that group when it exists (dict.get guarded by is-not-None). -/
def select_specs {α : Type} (grouped : List (String × List α)) (parameter_groups : List String) :
    List α :=
  parameter_groups.foldl
    (fun acc g =>
      match assoc_get grouped g with
      | none => acc
      | some items => acc ++ items)
    []

/-- The material attribute state touched by the shader picker operators. -/
structure MaterialAttributes where
  shader : String
  custom_shader : String
  variation : String
  variations : List String
  shader_parameters : List ParamSpec
  shader_textures : List TexSpec
deriving DecidableEq, Repr

/-- Embedding of clear_shader: reset the shader enum unless it is the
custom marker, reset the custom shader path, clear the variation, parameter
and texture collections; the trailing guard can only reset the variation
when the shader value is neither custom nor default. -/
def clear_shader (a : MaterialAttributes) : MaterialAttributes :=
  let a1 := if a.shader = shader_custom then a else { a with shader := shader_default }
  let a2 := { a1 with custom_shader := custom_shader_default, variations := [],
                      shader_parameters := [], shader_textures := [] }
  if a2.shader = shader_custom ∨ a2.shader = shader_default then a2
  else { a2 with variation := shader_no_variation }

/-- Embedding of the descriptor-dependent part of I3DLoadCustomShader.execute.
The tree argument is the result of xml_i3d.parse.  Modelled from the spec:
xml_i3d.parse itself is outside this module and, per the spec, yields no
tree (none) for a missing or malformed document.  A none tree or a root tag
other than CustomShader clears the shader state; otherwise the variation
list is rebuilt from the Variations element. -/
def load_custom_shader_execute (tree : Option XMLElement) (a : MaterialAttributes) :
    Except String MaterialAttributes :=
  match tree with
  | none => Except.ok (clear_shader a)
  | some root =>
      if root.tag ≠ "CustomShader" then Except.ok (clear_shader a)
      else
        let base := { a with variations := [shader_no_variation],
                             variation := shader_no_variation }
        match find_child root "Variations" with
        | none => Except.ok base
        | some variations =>
            match variations.children.mapM (fun v =>
                match attrib_get v.attrib "name" with
                | none => (Except.error "KeyError: name" : Except String String)
                | some n => Except.ok n) with
            | Except.error e => Except.error e
            | Except.ok names => Except.ok { base with variations := base.variations ++ names }

/-- Count of leading decimal digits of a character list, together with the
remaining characters. -/
def drop_digits : List Char → Nat × List Char
  | [] => (0, [])
  | c :: rest =>
      if c.isDigit then
        let p := drop_digits rest
        (p.1 + 1, p.2)
      else (0, c :: rest)

/-- Mantissa acceptance for a float literal: digits, optionally with one
decimal point, at least one digit in total; returns the remaining
characters when accepted. -/
def after_mantissa (l : List Char) : Option (List Char) :=
  let p1 := drop_digits l
  match p1.2 with
  | '.' :: r2 =>
      let p2 := drop_digits r2
      if 0 < p1.1 + p2.1 then some p2.2 else none
  | r => if 0 < p1.1 then some r else none

/-- Digits of an exponent after the e marker: optional sign then at least
one digit; returns the remaining characters when accepted. -/
def exponent_digits (l : List Char) : Option (List Char) :=
  let l2 :=
    match l with
    | '+' :: r => r
    | '-' :: r => r
    | r => r
  let p := drop_digits l2
  if 0 < p.1 then some p.2 else none

/-- Exponent part acceptance: an e or E marker followed by exponent
digits. -/
def after_exponent : List Char → Option (List Char)
  | 'e' :: rest => exponent_digits rest
  | 'E' :: rest => exponent_digits rest
  | _ => none

/-- Leading and trailing whitespace removal, as the Python float builtin
applies to its argument. -/
def py_strip (l : List Char) : List Char :=
  ((l.dropWhile Char.isWhitespace).reverse.dropWhile Char.isWhitespace).reverse

/-- Optional sign removal at the front of a float literal. -/
def drop_sign : List Char → List Char
  | '+' :: r => r
  | '-' :: r => r
  | r => r

/-- Acceptance test of the Python float builtin on a string, modelled from
its documented behavior (the builtin is outside this repository): optional
surrounding whitespace and sign, then either an inf, infinity or nan word
in any case, or a digit string with optional decimal point and optional
exponent.  Digit-group underscores and non-ASCII digits are not modelled;
they never arise in the inputs considered here, and the theorems below only
use acceptance as a hypothesis, never rejection. -/
def py_float_ok (s : String) : Bool :=
  let l := drop_sign (py_strip s.data)
  if l.map Char.toLower = "inf".data ∨ l.map Char.toLower = "infinity".data ∨
      l.map Char.toLower = "nan".data then true
  else
    match after_mantissa l with
    | none => false
    | some r =>
        match r with
        | [] => true
        | r2 =>
            match after_exponent r2 with
            | some [] => true
            | _ => false

/-- The conversion pass of the selection loop: for each selected parameter,
tuple(map(float, default_value)) converts every default token to a float,
raising ValueError on the first token the float builtin rejects.  The float
values themselves live in host FloatProperty storage and are not part of
the portable record, so the embedding keeps the token strings and models
only the success or failure of the conversion. -/
def convert_parameters : List ParamSpec → Except String (List ParamSpec)
  | [] => Except.ok []
  | p :: rest =>
      if p.default_value.all py_float_ok then
        match convert_parameters rest with
        | Except.error e => Except.error e
        | Except.ok ps => Except.ok (p :: ps)
      else Except.error "ValueError: could not convert string to float"

/-- Embedding of the descriptor-dependent part of
I3DLoadCustomShaderVariation.execute.  The tree argument is the result of
xml_i3d.parse (none for a missing document, which clears the shader state).
Otherwise the parameter and texture collections are cleared, the Parameters
and Textures children are grouped, the activated groups are computed from
the stored variation, the selected parameters have their default tokens
converted to floats (a rejected token raises ValueError), and the selected
specs are stored back. -/
def load_custom_shader_variation_execute (tree : Option XMLElement) (a : MaterialAttributes) :
    Except String MaterialAttributes :=
  match tree with
  | none => Except.ok (clear_shader a)
  | some root =>
      let a1 := { a with shader_parameters := [], shader_textures := [] }
      match group_parameters (children_of root "Parameters") with
      | Except.error e => Except.error e
      | Except.ok grouped_parameters =>
          match group_textures (children_of root "Textures") with
          | Except.error e => Except.error e
          | Except.ok grouped_textures =>
              match parameter_groups_of a1.variation root with
              | Except.error e => Except.error e
              | Except.ok parameter_groups =>
                  match convert_parameters (select_specs grouped_parameters parameter_groups) with
                  | Except.error e => Except.error e
                  | Except.ok converted =>
                      Except.ok { a1 with
                        shader_parameters := converted,
                        shader_textures := select_specs grouped_textures parameter_groups }

/-- The static items heading every shader enum item list. -/
def STATIC_ITEMS : List (String × String × String) :=
  [(shader_default, "Select a shader", "Select a shader"),
   (shader_custom, "Load Custom Shader", "Load a custom shader")]

/-- The environment consulted by shader_items_update when the cache is
empty: the configured data path, whether the shader directory exists, and
the stems of the xml files it contains. -/
structure ShaderEnv where
  fs_data_path : String
  shader_dir_exists : Bool
  shader_file_stems : List String

/-- Embedding of I3DMaterialShader.shader_items_update as a function of the
SHADER_CACHE global and the filesystem environment, returning the item list
and the new cache value.  A truthy cache (some nonempty list) is returned
directly after the static items; a none or empty cache triggers a directory
scan, mirroring the Python truthiness test. -/
def shader_items_update (shader_cache : Option (List (String × String × String)))
    (env : ShaderEnv) :
    List (String × String × String) × Option (List (String × String × String)) :=
  match shader_cache with
  | some (i :: rest) => (STATIC_ITEMS ++ i :: rest, some (i :: rest))
  | _ =>
      if env.fs_data_path = "" ∨ env.shader_dir_exists = false then
        ([("No shaders found", "No shaders found", "No shaders found")], shader_cache)
      else
        let cache := env.shader_file_stems.map fun s => (s, s, "Shader")
        (STATIC_ITEMS ++ cache, some cache)

/-- Membership of a spec in a named bucket of a grouped association list. -/
def SpecIn {α : Type} (grouped : List (String × List α)) (g : String) (s : α) : Prop :=
  ∃ specs, assoc_get grouped g = some specs ∧ s ∈ specs

lemma type_length_pos {t : String} {tl : Nat} (h : type_length_of t = some tl) : 1 ≤ tl := by
  unfold type_length_of at h
  split_ifs at h
  all_goals injection h with h2
  all_goals omega

lemma parse_default_length (tl : Nat) (h : 1 ≤ tl) (d : Option String) :
    (parse_default tl d).length = tl := by
  unfold parse_default
  cases d with
  | none => simp
  | some s =>
      by_cases hlen : tl < (py_split s).length
      · simp only [hlen, if_true, List.length_append, List.length_take, List.length_replicate]
        omega
      · simp only [hlen, if_false, List.length_append, List.length_replicate]
        omega

lemma clear_shader_fields (a : MaterialAttributes) :
    (clear_shader a).variations = [] ∧ (clear_shader a).shader_parameters = [] ∧
    (clear_shader a).shader_textures = [] ∧
    (clear_shader a).custom_shader = custom_shader_default := by
  by_cases h1 : a.shader = shader_custom <;> simp [clear_shader, h1]

lemma foldl_select_aux {α : Type} (grouped : List (String × List α)) (gs : List String)
    (acc : List α) :
    gs.foldl
      (fun acc g =>
        match assoc_get grouped g with
        | none => acc
        | some items => acc ++ items)
      acc
    = acc ++ gs.flatMap (fun g => (assoc_get grouped g).getD []) := by
  induction gs generalizing acc with
  | nil => simp
  | cons g rest ih =>
      rw [List.foldl_cons, ih, List.flatMap_cons]
      cases h : assoc_get grouped g with
      | none => simp [h]
      | some items => simp [h, List.append_assoc]

lemma select_specs_eq_bind {α : Type} (grouped : List (String × List α)) (gs : List String) :
    select_specs grouped gs = gs.flatMap fun g => (assoc_get grouped g).getD [] := by
  unfold select_specs
  rw [foldl_select_aux]
  simp

lemma convert_parameters_ok (l : List ParamSpec)
    (h : ∀ p ∈ l, p.default_value.all py_float_ok = true) :
    convert_parameters l = Except.ok l := by
  induction l with
  | nil => rfl
  | cons p rest ih =>
      have hp := h p (List.mem_cons_self p rest)
      have hrest := ih fun q hq => h q (List.mem_cons_of_mem p hq)
      rw [convert_parameters, hp, hrest]
      simp

lemma mapM_ok_of_forall {α β : Type} (f : α → Except String β) (g : α → β)
    (l : List α) (h : ∀ x ∈ l, f x = Except.ok (g x)) :
    l.mapM f = Except.ok (l.map g) := by
  induction l with
  | nil => rfl
  | cons x rest ih =>
      rw [List.mapM_cons, h x (List.mem_cons_self x rest), List.map_cons,
        ih fun y hy => h y (List.mem_cons_of_mem x hy)]
      rfl

lemma assoc_get_setdefault_self {α : Type} (l : List (String × List α)) (k : String)
    (items : List α) :
    assoc_get (setdefault_extend l k items) k = some ((assoc_get l k).getD [] ++ items) := by
  induction l with
  | nil => simp [setdefault_extend, assoc_get]
  | cons p rest ih =>
      by_cases hk : p.1 = k
      · simp [setdefault_extend, assoc_get, hk]
      · simp [setdefault_extend, assoc_get, hk, ih]

lemma assoc_get_setdefault_ne {α : Type} (l : List (String × List α)) (k k2 : String)
    (items : List α) (h : k2 ≠ k) :
    assoc_get (setdefault_extend l k items) k2 = assoc_get l k2 := by
  induction l with
  | nil => simp [setdefault_extend, assoc_get, Ne.symm h]
  | cons p rest ih =>
      by_cases hk : p.1 = k
      · have hne : ¬ p.1 = k2 := by rw [hk]; exact Ne.symm h
        simp [setdefault_extend, assoc_get, hk, hne, Ne.symm h]
      · simp [setdefault_extend, assoc_get, hk, ih]

lemma SpecIn_setdefault_mono {α : Type} {l : List (String × List α)} {g : String} {s : α}
    (k : String) (items : List α) (h : SpecIn l g s) :
    SpecIn (setdefault_extend l k items) g s := by
  obtain ⟨specs, hget, hmem⟩ := h
  by_cases hk : g = k
  · subst hk
    refine ⟨(assoc_get l g).getD [] ++ items, assoc_get_setdefault_self l g items, ?_⟩
    rw [hget]
    exact List.mem_append_left items hmem
  · exact ⟨specs, by rw [assoc_get_setdefault_ne l k g items hk]; exact hget, hmem⟩

lemma SpecIn_setdefault_new {α : Type} (l : List (String × List α)) (k : String)
    (items : List α) {s : α} (h : s ∈ items) :
    SpecIn (setdefault_extend l k items) k s :=
  ⟨(assoc_get l k).getD [] ++ items, assoc_get_setdefault_self l k items,
    List.mem_append_right _ h⟩

lemma group_parameters_aux_mono {ps : List XMLElement} :
    ∀ {acc grouped : List (String × List ParamSpec)},
      group_parameters_aux acc ps = Except.ok grouped →
      ∀ {g : String} {s : ParamSpec}, SpecIn acc g s → SpecIn grouped g s := by
  induction ps with
  | nil =>
      intro acc grouped hok g s h
      simp [group_parameters_aux] at hok
      exact hok ▸ h
  | cons p rest ih =>
      intro acc grouped hok g s h
      rw [group_parameters_aux] at hok
      cases hp : parameter_element_as_dict p with
      | error e => rw [hp] at hok; simp at hok
      | ok specs =>
          rw [hp] at hok
          exact ih hok (SpecIn_setdefault_mono _ _ h)

lemma group_parameters_aux_mem (ps : List XMLElement) :
    ∀ (acc grouped : List (String × List ParamSpec)),
      group_parameters_aux acc ps = Except.ok grouped →
      ∀ p ∈ ps, ∀ specs, parameter_element_as_dict p = Except.ok specs →
      ∀ s ∈ specs, SpecIn grouped ((attrib_get p.attrib "group").getD "mandatory") s := by
  induction ps with
  | nil =>
      intro acc grouped hok p hp
      cases hp
  | cons q rest ih =>
      intro acc grouped hok p hp specs hspecs s hs
      rw [group_parameters_aux] at hok
      rcases List.mem_cons.mp hp with heq | hmem
      · subst heq
        rw [hspecs] at hok
        exact group_parameters_aux_mono hok (SpecIn_setdefault_new _ _ _ hs)
      · cases hq : parameter_element_as_dict q with
        | error e => rw [hq] at hok; simp at hok
        | ok specs2 =>
            rw [hq] at hok
            exact ih _ _ hok p hmem specs hspecs s hs

lemma group_textures_aux_mono {ts : List XMLElement} :
    ∀ {acc grouped : List (String × List TexSpec)},
      group_textures_aux acc ts = Except.ok grouped →
      ∀ {g : String} {s : TexSpec}, SpecIn acc g s → SpecIn grouped g s := by
  induction ts with
  | nil =>
      intro acc grouped hok g s h
      simp [group_textures_aux] at hok
      exact hok ▸ h
  | cons t rest ih =>
      intro acc grouped hok g s h
      rw [group_textures_aux] at hok
      cases hprof : (attrib_get t.attrib "defaultColorProfile").isSome with
      | false =>
          rw [hprof] at hok
          simp only [Bool.false_eq_true, if_false] at hok
          exact ih hok h
      | true =>
          rw [hprof] at hok
          simp only [if_true] at hok
          cases ht : texture_element_as_dict t with
          | error e => rw [ht] at hok; simp at hok
          | ok spec =>
              rw [ht] at hok
              exact ih hok (SpecIn_setdefault_mono _ _ h)

lemma group_textures_aux_mem (ts : List XMLElement) :
    ∀ (acc grouped : List (String × List TexSpec)),
      group_textures_aux acc ts = Except.ok grouped →
      ∀ t ∈ ts, (attrib_get t.attrib "defaultColorProfile").isSome = true →
      ∀ spec, texture_element_as_dict t = Except.ok spec →
      SpecIn grouped ((attrib_get t.attrib "group").getD "mandatory") spec := by
  induction ts with
  | nil =>
      intro acc grouped hok t ht
      cases ht
  | cons q rest ih =>
      intro acc grouped hok t ht hprof spec hspec
      rw [group_textures_aux] at hok
      rcases List.mem_cons.mp ht with heq | hmem
      · subst heq
        rw [hprof] at hok
        simp only [if_true] at hok
        rw [hspec] at hok
        exact group_textures_aux_mono hok
          (SpecIn_setdefault_new _ _ _ (List.mem_singleton.mpr rfl))
      · cases hq : (attrib_get q.attrib "defaultColorProfile").isSome with
        | false =>
            rw [hq] at hok
            simp only [Bool.false_eq_true, if_false] at hok
            exact ih _ _ hok t hmem hprof spec hspec
        | true =>
            rw [hq] at hok
            simp only [if_true] at hok
            cases hqt : texture_element_as_dict q with
            | error e => rw [hqt] at hok; simp at hok
            | ok spec2 =>
                rw [hqt] at hok
                exact ih _ _ hok t hmem hprof spec hspec

lemma group_textures_aux_filter (ts : List XMLElement) :
    ∀ acc, group_textures_aux acc
        (ts.filter fun t => (attrib_get t.attrib "defaultColorProfile").isSome)
      = group_textures_aux acc ts := by
  induction ts with
  | nil => intro acc; rfl
  | cons t rest ih =>
      intro acc
      cases hprof : (attrib_get t.attrib "defaultColorProfile").isSome with
      | false =>
          rw [List.filter_cons]
          simp only [hprof, Bool.false_eq_true, if_false]
          rw [ih]
          rw [group_textures_aux, hprof]
          simp only [Bool.false_eq_true, if_false]
      | true =>
          rw [List.filter_cons]
          simp only [hprof, if_true]
          rw [group_textures_aux, group_textures_aux, hprof]
          simp only [if_true]
          cases ht : texture_element_as_dict t with
          | error e => rfl
          | ok spec => exact ih _

/-- C1: evaluating the code on a scalar float parameter whose defaultValue
is "1 2 3 4" yields the default value ["0"], not ["1"] as the claim states:
the slice keeps type_length - 1 = 0 components, discarding even the first
in-arity component, and the zero padding restores a single "0".  This
contradicts the comment in the source, which says only the excess
components are irrelevant. -/
theorem c1_scalar_default_is_zero :
    parameter_element_as_dict
      { tag := "Parameter",
        attrib := [("name", "x"), ("type", "float"), ("defaultValue", "1 2 3 4")],
        text := none, children := [] }
      = Except.ok [{ name := "x", type := "float", default_value := ["0"] }] := by
  rfl

/-- C9: a parameter element whose type attribute is not one of the four
float types makes parameter_element_as_dict fail: the Python code leaves
type_length unassigned and the parse_default call then raises NameError, so
the function is not total over arbitrary type strings. -/
theorem c9_unknown_type_raises :
    parameter_element_as_dict
      { tag := "Parameter", attrib := [("name", "x"), ("type", "int")],
        text := none, children := [] }
      = Except.error "NameError: name type_length is not defined" := by
  rfl

/-- C10: although the operator docstring says the operation never fails,
executing the variation loader with an active variation name on a
well-formed descriptor that has no Variations element dereferences None and
the AttributeError propagates out of the operation. -/
theorem c10_variation_lookup_raises :
    load_custom_shader_variation_execute
      (some { tag := "CustomShader", attrib := [], text := none, children := [] })
      { shader := "vehicleShader", custom_shader := "", variation := "Colors",
        variations := ["None", "Colors"], shader_parameters := [], shader_textures := [] }
      = Except.error "AttributeError: NoneType object has no attribute find" := by
  rfl

/-- C3: for any parse result that is either no tree at all (missing or
malformed XML) or a well-formed tree whose root tag is not CustomShader, the
load operation returns normally (no raised exception reaches the caller)
with the shader state cleared: variations, parameters and textures are all
emptied and the custom shader path is reset, the no-shader-selected state. -/
theorem c3_invalid_descriptor_clears (tree : Option XMLElement) (a : MaterialAttributes)
    (h : tree = none ∨ ∃ root, tree = some root ∧ root.tag ≠ "CustomShader") :
    load_custom_shader_execute tree a = Except.ok (clear_shader a) ∧
    (clear_shader a).variations = [] ∧
    (clear_shader a).shader_parameters = [] ∧
    (clear_shader a).shader_textures = [] ∧
    (clear_shader a).custom_shader = custom_shader_default := by
  refine ⟨?_, clear_shader_fields a⟩
  rcases h with h | ⟨root, hroot, htag⟩
  · subst h; rfl
  · subst hroot
    unfold load_custom_shader_execute
    simp [htag]

/-- Witness for C3 at a concrete input: a failed parse on a material with
loaded state produces exactly the cleared state. -/
theorem c3_invalid_descriptor_clears_witness :
    load_custom_shader_execute none
      { shader := "vehicleShader", custom_shader := "", variation := "Colors",
        variations := ["None", "Colors"],
        shader_parameters := [{ name := "morphPosition", type := "float4",
                                default_value := ["0", "0", "0", "0"] }],
        shader_textures := [{ name := "diffuse", default_file := "" }] }
      = Except.ok
      { shader := "None", custom_shader := "", variation := "Colors",
        variations := [], shader_parameters := [], shader_textures := [] } :=
  (c3_invalid_descriptor_clears none _ (Or.inl rfl)).1

/-- C4: for a parameter whose declared type is one of the four float types,
the derived default value always has length equal to the arity of the type;
a default with at most arity many components is kept and zero padded to the
arity, and in particular a float3 parameter with no default attribute
derives the default list of three zeros. -/
theorem c4_default_value_arity (t : String) (tl : Nat) (d : Option String)
    (h : type_length_of t = some tl) :
    (parse_default tl d).length = tl ∧
    (∀ s, d = some s → (py_split s).length ≤ tl →
        parse_default tl d = py_split s ++ List.replicate (tl - (py_split s).length) "0") ∧
    parse_default 3 none = ["0", "0", "0"] := by
  refine ⟨parse_default_length tl (type_length_pos h) d, ?_, rfl⟩
  intro s hs hle
  subst hs
  have hnot : ¬ tl < (py_split s).length := by omega
  simp [parse_default, hnot]

/-- Witness for C4 at the concrete float3 type with no default attribute. -/
theorem c4_default_value_arity_witness :
    type_length_of "float3" = some 3 ∧ parse_default 3 none = ["0", "0", "0"] :=
  ⟨rfl, (c4_default_value_arity "float3" 3 none rfl).2.2⟩

/-- C8: once the process-wide shader cache holds a nonempty list, a shader
item query returns the static items followed by exactly the cached list and
leaves the cache unchanged, for every filesystem environment (so no rescan
of the shader directory can influence the result). -/
theorem c8_shader_cache_immutable (c : List (String × String × String)) (env : ShaderEnv)
    (h : c ≠ []) :
    shader_items_update (some c) env = (STATIC_ITEMS ++ c, some c) := by
  cases c with
  | nil => exact absurd rfl h
  | cons i rest => rfl

/-- Witness for C8 at a concrete nonempty cache and an environment whose
shader directory does not even exist: the cached items are still served. -/
theorem c8_shader_cache_immutable_witness :
    ([("glassShader", "glassShader", "Shader")] : List (String × String × String)) ≠ [] ∧
    shader_items_update (some [("glassShader", "glassShader", "Shader")])
      { fs_data_path := "", shader_dir_exists := false, shader_file_stems := [] }
      = (STATIC_ITEMS ++ [("glassShader", "glassShader", "Shader")],
         some [("glassShader", "glassShader", "Shader")]) :=
  ⟨by decide, c8_shader_cache_immutable _ _ (by decide)⟩

/-- C2: with no active variation the activated groups are exactly
mandatory followed by base; with an active variation (present in the
Variations element) they are mandatory followed by the split groups
attribute of that variation; and the selection loop produces, for any
grouped mapping and any activated group list, the concatenation of the
buckets of the activated groups in listed order, each bucket keeping its
declaration order.  The final conjunct ties this to the full operator: when
every selected default token is accepted by the float conversion (otherwise
the loop raises ValueError), the stored parameter and texture sequences are
exactly these selections. -/
theorem c2_variation_group_selection (root e : XMLElement) (v : String)
    (hv : v ≠ shader_no_variation) (hfind : find_variation root v = some e) :
    parameter_groups_of shader_no_variation root = Except.ok ["mandatory", "base"] ∧
    parameter_groups_of v root =
      Except.ok ("mandatory" :: py_split ((attrib_get e.attrib "groups").getD "")) ∧
    (∀ (gp : List (String × List ParamSpec)) (gs : List String),
        select_specs gp gs = gs.flatMap fun g => (assoc_get gp g).getD []) ∧
    (∀ (gt : List (String × List TexSpec)) (gs : List String),
        select_specs gt gs = gs.flatMap fun g => (assoc_get gt g).getD []) ∧
    (∀ (a : MaterialAttributes) gp gt pgs,
        group_parameters (children_of root "Parameters") = Except.ok gp →
        group_textures (children_of root "Textures") = Except.ok gt →
        parameter_groups_of a.variation root = Except.ok pgs →
        (∀ p ∈ select_specs gp pgs, p.default_value.all py_float_ok = true) →
        load_custom_shader_variation_execute (some root) a =
          Except.ok { a with shader_parameters := select_specs gp pgs,
                             shader_textures := select_specs gt pgs }) := by
  refine ⟨rfl, ?_, fun gp gs => select_specs_eq_bind gp gs,
    fun gt gs => select_specs_eq_bind gt gs, ?_⟩
  · unfold parameter_groups_of
    rw [if_pos hv]
    unfold find_variation at hfind
    cases hvs : find_child root "Variations" with
    | none => rw [hvs] at hfind; exact absurd hfind (by simp)
    | some variations =>
        rw [hvs] at hfind
        dsimp only at hfind
        dsimp only
        rw [hfind]
  · intro a gp gt pgs hgp hgt hpgs hconv
    unfold load_custom_shader_variation_execute
    dsimp only
    rw [hgp, hgt, hpgs]
    dsimp only
    rw [convert_parameters_ok _ hconv]

/-- Witness for C2: a concrete descriptor with a mandatory, a base and an
extra parameter plus an extra-group texture, and a variation named Colors
activating the extra group.  Selecting the variation activates mandatory
then extra, and running the full operator stores exactly the mandatory then
extra specs in order (the base parameter is left out), the conversion
hypothesis holding since every default token is numeric. -/
theorem c2_variation_group_selection_witness :
    parameter_groups_of "Colors"
      { tag := "CustomShader", attrib := [], text := none, children :=
          [{ tag := "Parameters", attrib := [], text := none, children :=
              [{ tag := "Parameter",
                 attrib := [("name", "a"), ("type", "float"), ("defaultValue", "1")],
                 text := none, children := [] },
               { tag := "Parameter",
                 attrib := [("name", "c"), ("type", "float"), ("group", "base"),
                            ("defaultValue", "9")],
                 text := none, children := [] },
               { tag := "Parameter",
                 attrib := [("name", "b"), ("type", "float2"), ("group", "extra"),
                            ("defaultValue", "2 3")],
                 text := none, children := [] }] },
           { tag := "Textures", attrib := [], text := none, children :=
              [{ tag := "Texture",
                 attrib := [("name", "diffuse"), ("defaultColorProfile", "sRGB"),
                            ("group", "extra")],
                 text := none, children := [] }] },
           { tag := "Variations", attrib := [], text := none, children :=
              [{ tag := "Variation", attrib := [("name", "Colors"), ("groups", "extra")],
                 text := none, children := [] }] }] }
      = Except.ok ["mandatory", "extra"] ∧
    load_custom_shader_variation_execute
      (some { tag := "CustomShader", attrib := [], text := none, children :=
          [{ tag := "Parameters", attrib := [], text := none, children :=
              [{ tag := "Parameter",
                 attrib := [("name", "a"), ("type", "float"), ("defaultValue", "1")],
                 text := none, children := [] },
               { tag := "Parameter",
                 attrib := [("name", "c"), ("type", "float"), ("group", "base"),
                            ("defaultValue", "9")],
                 text := none, children := [] },
               { tag := "Parameter",
                 attrib := [("name", "b"), ("type", "float2"), ("group", "extra"),
                            ("defaultValue", "2 3")],
                 text := none, children := [] }] },
           { tag := "Textures", attrib := [], text := none, children :=
              [{ tag := "Texture",
                 attrib := [("name", "diffuse"), ("defaultColorProfile", "sRGB"),
                            ("group", "extra")],
                 text := none, children := [] }] },
           { tag := "Variations", attrib := [], text := none, children :=
              [{ tag := "Variation", attrib := [("name", "Colors"), ("groups", "extra")],
                 text := none, children := [] }] }] })
      { shader := "vehicleShader", custom_shader := "", variation := "Colors",
        variations := ["None", "Colors"], shader_parameters := [], shader_textures := [] }
      = Except.ok
      { shader := "vehicleShader", custom_shader := "", variation := "Colors",
        variations := ["None", "Colors"],
        shader_parameters := [{ name := "a", type := "float", default_value := ["1"] },
                              { name := "b", type := "float2", default_value := ["2", "3"] }],
        shader_textures := [{ name := "diffuse", default_file := "" }] } :=
  let h := c2_variation_group_selection
    { tag := "CustomShader", attrib := [], text := none, children :=
        [{ tag := "Parameters", attrib := [], text := none, children :=
            [{ tag := "Parameter",
               attrib := [("name", "a"), ("type", "float"), ("defaultValue", "1")],
               text := none, children := [] },
             { tag := "Parameter",
               attrib := [("name", "c"), ("type", "float"), ("group", "base"),
                          ("defaultValue", "9")],
               text := none, children := [] },
             { tag := "Parameter",
               attrib := [("name", "b"), ("type", "float2"), ("group", "extra"),
                          ("defaultValue", "2 3")],
               text := none, children := [] }] },
         { tag := "Textures", attrib := [], text := none, children :=
            [{ tag := "Texture",
               attrib := [("name", "diffuse"), ("defaultColorProfile", "sRGB"),
                          ("group", "extra")],
               text := none, children := [] }] },
         { tag := "Variations", attrib := [], text := none, children :=
            [{ tag := "Variation", attrib := [("name", "Colors"), ("groups", "extra")],
               text := none, children := [] }] }] }
    { tag := "Variation", attrib := [("name", "Colors"), ("groups", "extra")],
      text := none, children := [] }
    "Colors" (by decide) rfl
  ⟨h.2.1,
   h.2.2.2.2
     { shader := "vehicleShader", custom_shader := "", variation := "Colors",
       variations := ["None", "Colors"], shader_parameters := [], shader_textures := [] }
     [("mandatory", [{ name := "a", type := "float", default_value := ["1"] }]),
      ("base", [{ name := "c", type := "float", default_value := ["9"] }]),
      ("extra", [{ name := "b", type := "float2", default_value := ["2", "3"] }])]
     [("extra", [{ name := "diffuse", default_file := "" }])]
     ["mandatory", "extra"] rfl rfl rfl (by decide)⟩

/-- C5: a parameter element carrying an arraySize attribute (with a known
float type, a name, and an index attribute on every child) expands into
exactly one spec per child, in child order, each named by the parent name
concatenated with the child index and carrying the parsed child text as its
default value; in particular the number of specs equals the number of
children. -/
theorem c5_array_parameter_expansion (parameter : XMLElement) (t nm : String) (tl : Nat)
    (htype : attrib_get parameter.attrib "type" = some t)
    (htl : type_length_of t = some tl)
    (harr : (attrib_get parameter.attrib "arraySize").isSome = true)
    (hname : attrib_get parameter.attrib "name" = some nm)
    (hidx : ∀ c ∈ parameter.children, (attrib_get c.attrib "index").isSome = true) :
    parameter_element_as_dict parameter =
      Except.ok (parameter.children.map fun c =>
        { name := nm ++ ((attrib_get c.attrib "index").getD ""), type := t,
          default_value := parse_default tl c.text }) ∧
    ∀ specs, parameter_element_as_dict parameter = Except.ok specs →
      specs.length = parameter.children.length := by
  have hmain : parameter_element_as_dict parameter =
      Except.ok (parameter.children.map fun c =>
        { name := nm ++ ((attrib_get c.attrib "index").getD ""), type := t,
          default_value := parse_default tl c.text }) := by
    unfold parameter_element_as_dict
    rw [htype]
    simp only [harr, if_true]
    apply mapM_ok_of_forall
    intro c hc
    obtain ⟨idx, hidx2⟩ := Option.isSome_iff_exists.mp (hidx c hc)
    rw [hname, hidx2]
    unfold parse_default_checked
    rw [htl]
    simp [hidx2]
  refine ⟨hmain, ?_⟩
  intro specs hspecs
  rw [hmain] at hspecs
  cases hspecs
  simp

/-- Witness for C5: an arraySize parameter with three indexed children
produces exactly the three specs named by appending each child index. -/
theorem c5_array_parameter_expansion_witness :
    parameter_element_as_dict
      { tag := "Parameter",
        attrib := [("name", "morphPos"), ("type", "float2"), ("arraySize", "3")],
        text := none, children :=
          [{ tag := "Parameter", attrib := [("index", "0")], text := some "1 2", children := [] },
           { tag := "Parameter", attrib := [("index", "1")], text := none, children := [] },
           { tag := "Parameter", attrib := [("index", "2")], text := some "7", children := [] }] }
      = Except.ok
        [{ name := "morphPos0", type := "float2", default_value := ["1", "2"] },
         { name := "morphPos1", type := "float2", default_value := ["0", "0"] },
         { name := "morphPos2", type := "float2", default_value := ["7", "0"] }] :=
  (c5_array_parameter_expansion
    { tag := "Parameter",
      attrib := [("name", "morphPos"), ("type", "float2"), ("arraySize", "3")],
      text := none, children :=
        [{ tag := "Parameter", attrib := [("index", "0")], text := some "1 2", children := [] },
         { tag := "Parameter", attrib := [("index", "1")], text := none, children := [] },
         { tag := "Parameter", attrib := [("index", "2")], text := some "7", children := [] }] }
    "float2" "morphPos" 2 rfl rfl rfl rfl (by decide)).1

/-- C6: grouping the Textures children is invariant under discarding the
entries with no defaultColorProfile attribute (so such entries contribute to
no group at all), and every entry that does carry the attribute (and has a
name) lands in the bucket named by its group attribute, mandatory by
default. -/
theorem c6_texture_color_profile (ts : List XMLElement)
    (grouped : List (String × List TexSpec)) (hok : group_textures ts = Except.ok grouped) :
    group_textures (ts.filter fun t => (attrib_get t.attrib "defaultColorProfile").isSome)
      = Except.ok grouped ∧
    ∀ t ∈ ts, (attrib_get t.attrib "defaultColorProfile").isSome = true →
      ∀ spec, texture_element_as_dict t = Except.ok spec →
        SpecIn grouped ((attrib_get t.attrib "group").getD "mandatory") spec := by
  constructor
  · rw [group_textures, group_textures_aux_filter]
    exact hok
  · intro t ht hprof spec hspec
    exact group_textures_aux_mem ts [] grouped hok t ht hprof spec hspec

/-- Witness for C6 at a concrete texture listing: the entry carrying a
color profile is bucketed, the entry lacking one is dropped, so filtering it
away leaves the grouping unchanged. -/
theorem c6_texture_color_profile_witness :
    group_textures
      (List.filter (fun t => (attrib_get t.attrib "defaultColorProfile").isSome)
        [{ tag := "Texture", attrib := [("name", "diffuse"), ("defaultColorProfile", "sRGB")],
           text := none, children := [] },
         { tag := "Texture", attrib := [("name", "gloss")], text := none, children := [] }])
      = Except.ok [("mandatory", [{ name := "diffuse", default_file := "" }])] ∧
    SpecIn [("mandatory", [({ name := "diffuse", default_file := "" } : TexSpec)])]
      "mandatory" { name := "diffuse", default_file := "" } :=
  ⟨(c6_texture_color_profile
      [{ tag := "Texture", attrib := [("name", "diffuse"), ("defaultColorProfile", "sRGB")],
         text := none, children := [] },
       { tag := "Texture", attrib := [("name", "gloss")], text := none, children := [] }]
      [("mandatory", [{ name := "diffuse", default_file := "" }])] rfl).1,
   (c6_texture_color_profile
      [{ tag := "Texture", attrib := [("name", "diffuse"), ("defaultColorProfile", "sRGB")],
         text := none, children := [] },
       { tag := "Texture", attrib := [("name", "gloss")], text := none, children := [] }]
      [("mandatory", [{ name := "diffuse", default_file := "" }])] rfl).2
     _ (List.mem_cons_self _ _) rfl _ rfl⟩

/-- C7: every parameter entry, and every texture entry that is considered
at all (one carrying a color profile), is bucketed under "mandatory" when it
has no group attribute and under the named group when it has one. -/
theorem c7_default_group_mandatory
    (ps ts : List XMLElement) (gp : List (String × List ParamSpec))
    (gt : List (String × List TexSpec))
    (hp : group_parameters ps = Except.ok gp) (ht : group_textures ts = Except.ok gt) :
    (∀ p ∈ ps, ∀ specs, parameter_element_as_dict p = Except.ok specs → ∀ s ∈ specs,
        (attrib_get p.attrib "group" = none → SpecIn gp "mandatory" s) ∧
        (∀ g, attrib_get p.attrib "group" = some g → SpecIn gp g s)) ∧
    (∀ t ∈ ts, (attrib_get t.attrib "defaultColorProfile").isSome = true →
      ∀ spec, texture_element_as_dict t = Except.ok spec →
        (attrib_get t.attrib "group" = none → SpecIn gt "mandatory" spec) ∧
        (∀ g, attrib_get t.attrib "group" = some g → SpecIn gt g spec)) := by
  constructor
  · intro p hpmem specs hspecs s hs
    have base := group_parameters_aux_mem ps [] gp hp p hpmem specs hspecs s hs
    constructor
    · intro hnone
      rw [hnone] at base
      exact base
    · intro g hg
      rw [hg] at base
      exact base
  · intro t htmem hprof spec hspec
    have base := group_textures_aux_mem ts [] gt ht t htmem hprof spec hspec
    constructor
    · intro hnone
      rw [hnone] at base
      exact base
    · intro g hg
      rw [hg] at base
      exact base

/-- Witness for C7 at a concrete listing: a groupless float parameter lands
in the mandatory bucket and a parameter with group colorMask lands in the
colorMask bucket. -/
theorem c7_default_group_mandatory_witness :
    SpecIn [("mandatory", [({ name := "a", type := "float", default_value := ["0"] } : ParamSpec)]),
            ("colorMask", [{ name := "b", type := "float3", default_value := ["0", "0", "0"] }])]
      "mandatory" { name := "a", type := "float", default_value := ["0"] } ∧
    SpecIn [("mandatory", [({ name := "a", type := "float", default_value := ["0"] } : ParamSpec)]),
            ("colorMask", [{ name := "b", type := "float3", default_value := ["0", "0", "0"] }])]
      "colorMask" { name := "b", type := "float3", default_value := ["0", "0", "0"] } :=
  ⟨((c7_default_group_mandatory
      [{ tag := "Parameter", attrib := [("name", "a"), ("type", "float")],
         text := none, children := [] },
       { tag := "Parameter", attrib := [("name", "b"), ("type", "float3"), ("group", "colorMask")],
         text := none, children := [] }]
      [] _ _ rfl rfl).1
      _ (List.mem_cons_self _ _) _ rfl _ (List.mem_cons_self _ _)).1 rfl,
   ((c7_default_group_mandatory
      [{ tag := "Parameter", attrib := [("name", "a"), ("type", "float")],
         text := none, children := [] },
       { tag := "Parameter", attrib := [("name", "b"), ("type", "float3"), ("group", "colorMask")],
         text := none, children := [] }]
      [] _ _ rfl rfl).1
      _ (List.mem_cons_of_mem _ (List.mem_cons_self _ _)) _ rfl _
      (List.mem_cons_self _ _)).2 "colorMask" rfl⟩

end ShaderPicker
